import Mathlib

/-!
Shallow embedding of `rpc/jsonrpc/client/ws_client.go` (package `client`,
the reconnecting WebSocket JSON-RPC client `WSClient`).

Modelling conventions:
* Go `time.Duration` and timestamps are integer nanoseconds (`Int`).
* Go `int` is 64-bit; arithmetic that can overflow goes through `int64Wrap`.
* A Go buffered channel of capacity 1 (`backlog`, `reconnectAfter`) is an
  `Option` holding the single buffered element; `none` is the empty channel.
  The operations modelled here only send on such a channel when it has room
  (see the comments at ws_client.go lines 165-170); `chanSend1` keeps the
  old element when the channel is full, standing in for a send that would
  block until the receiver drains it.
* The one-shot latch `readRoutineQuit` (a channel closed to broadcast) is a
  `Bool` flag: `true` once closed.
* The websocket connection is modelled by the list of frames written on the
  current connection generation, in order; `dial` starts a fresh generation
  with an empty list.
* Goroutine scheduling and `select` nondeterminism are resolved by explicit
  oracle parameters (which select arm fired, the outcome of each I/O call,
  the jitter drawn, the current time).
-/

/-- Errors returned by the Go websocket/network layer, as far as the client
inspects them: `websocket.IsUnexpectedCloseError` distinguishes
`*websocket.CloseError` values (a close frame with a status code) from every
other error (timeouts, net errors, EOF before a close frame, ...). -/
inductive GoError where
  | closeError (code : Nat) (text : String)
  | otherError (msg : String)
  deriving Repr, DecidableEq

/-- Status code `websocket.CloseNormalClosure` (RFC 6455 status 1000). -/
def closeNormalClosure : Nat := 1000

/-- Gorilla websocket's `IsUnexpectedCloseError(err, expectedCodes...)`:
true iff `err` is a `*websocket.CloseError` whose code is not in the
expected list; false for every non-close error. -/
def isUnexpectedCloseError (err : GoError) (expectedCodes : List Nat) : Bool :=
  match err with
  | .closeError code _ => !(expectedCodes.contains code)
  | .otherError _ => false

/-- An outbound JSON-RPC request (`rpctypes.RPCRequest` as built by
`MapToRequest`/`ArrayToRequest`): the integer correlation ID and the method;
the JSON-encoded params are abstracted to a string. -/
structure RPCRequest where
  id : Int
  method : String
  params : String
  deriving Repr, DecidableEq

/-- One frame written on the websocket connection: a JSON-encoded request
(`conn.WriteJSON`), a ping control frame, or a close control frame
(`conn.WriteMessage`). -/
inductive Frame where
  | requestFrame (request : RPCRequest)
  | ping
  | close
  deriving Repr, DecidableEq

/-- Two's-complement wrap of an integer into the `int64` range, modelling Go
`int` arithmetic. -/
def int64Wrap (x : Int) : Int :=
  (x + 2 ^ 63) % 2 ^ 64 - 2 ^ 63

/-- Go `time.Second` in nanoseconds. -/
def goSecond : Int := 1000000000

/-- Options `WSOptions` (ws_client.go lines 22-28); durations in nanoseconds. -/
structure WSOptions where
  maxReconnectAttempts : Nat
  readWait : Int
  writeWait : Int
  pingPeriod : Int
  skipMetrics : Bool
  deriving Repr, DecidableEq

/-- Defaults `DefaultWSOptions` (ws_client.go lines 31-38). -/
def defaultWSOptions : WSOptions :=
  { maxReconnectAttempts := 10
    writeWait := 10 * goSecond
    readWait := 0
    pingPeriod := 0
    skipMetrics := false }

/-- The mutable state of a `WSClient` that the modelled operations touch.
`running` is the `RunState`; `connWrites` is the trace of frames written on
the current connection generation; `workersRunning` records whether a
read/write worker pair for the current generation is alive (the `wg`
counter being 2 rather than 0). -/
structure WSClient where
  running : Bool
  reconnecting : Bool
  nextReqID : Int
  backlog : Option RPCRequest
  reconnectAfter : Option GoError
  readRoutineQuitClosed : Bool
  workersRunning : Bool
  sentLastPingAt : Int
  connWrites : List Frame
  maxReconnectAttempts : Nat
  writeWait : Int
  pingPeriod : Int
  deriving Repr, DecidableEq

/-- Send on a buffered channel of capacity 1. When the channel already
holds an element the Go send would block until the element is drained; the
client only sends on `backlog`/`reconnectAfter` when they have room, so the
full case (old element kept) is never exercised by the theorems below. -/
def chanSend1 {α : Type} (ch : Option α) (v : α) : Option α :=
  match ch with
  | none => some v
  | some w => some w

/-- Constructor `NewWSWithOptions` (ws_client.go lines 101-138): a fresh client with
all Go zero values for the mutable fields; `nextReqID` starts at 0. -/
def newWSClient (opts : WSOptions) : WSClient :=
  { running := false
    reconnecting := false
    nextReqID := 0
    backlog := none
    reconnectAfter := none
    readRoutineQuitClosed := false
    workersRunning := false
    sentLastPingAt := 0
    connWrites := []
    maxReconnectAttempts := opts.maxReconnectAttempts
    writeWait := opts.writeWait
    pingPeriod := opts.pingPeriod }

/-- Allocator `nextRequestID` (ws_client.go lines 240-246): under the mutex, return
the current counter and increment it (Go `int` increment, so with int64
wraparound). -/
def nextRequestID (c : WSClient) : Int × WSClient :=
  (c.nextReqID, { c with nextReqID := int64Wrap (c.nextReqID + 1) })

/-- The identifier-allocation state after `n` calls to `nextRequestID`. -/
def idStateAfter (c : WSClient) : Nat → WSClient
  | 0 => c
  | n + 1 => (nextRequestID (idStateAfter c n)).2

/-- The identifier returned by the `(n+1)`-th call to `nextRequestID`
(`n` starting at 0). -/
def nthAllocatedID (c : WSClient) (n : Nat) : Int :=
  (nextRequestID (idStateAfter c n)).1

/-- The request built by `UnsubscribeAll` (ws_client.go lines 539-542) via
`Call`: a fresh ID from `nextRequestID` and method "unsubscribe_all". -/
def unsubscribeAllRequest (c : WSClient) : RPCRequest × WSClient :=
  let (id, c') := nextRequestID c
  ({ id := id, method := "unsubscribe_all", params := "" }, c')

/-- Which arm of the `select` in `Send` fires first: the unbuffered `send`
channel accepting the request (the write worker is at its intake), or
`ctx.Done()`. -/
inductive SendSelectArm where
  | sendReady
  | ctxDone
  deriving Repr, DecidableEq

/-- Error returned by `ctx.Err()` after cancellation. -/
def ctxCanceledErr : GoError := .otherError "context canceled"

/-- Method `Send` (ws_client.go lines 206-217): a bare `select` racing the handoff
to the write worker against `ctx.Done()`. Returns the updated client state,
the returned error, and the request handed to the write worker (if any). -/
def sendGo (c : WSClient) (request : RPCRequest) (arm : SendSelectArm) :
    WSClient × Option GoError × Option RPCRequest :=
  match arm with
  | .sendReady => (c, none, some request)
  | .ctxDone => (c, some ctxCanceledErr, none)

/-- The backoff delay computed at the top of the `reconnect` loop
(ws_client.go lines 281-282): `jitter + ((1 << attempt) * time.Second)` in
Go `int64` nanosecond arithmetic, where `jitter` is
`time.Duration(mrand.Float64() * float64(time.Second))`, an integer in
`[0, 10^9)` supplied here as an oracle. -/
def backoffDuration (attempt : Nat) (jitter : Int) : Int :=
  int64Wrap (jitter + int64Wrap (int64Wrap (2 ^ attempt) * goSecond))

/-- The dial-retry loop of `reconnect` (ws_client.go lines 279-308), from
attempt counter `attempt`, consuming an oracle list of dial outcomes
(`true` = dial succeeded). Returns `some true` when a dial succeeds
(`reconnect` returns nil), `some false` when the incremented attempt
counter exceeds `maxAttempts` (`reconnect` returns the fatal
"reached maximum reconnect attempts" error), and `none` when the oracle is
exhausted before either happens (the run is not modelled further). -/
def reconnectFrom (maxAttempts : Nat) (attempt : Nat) : List Bool → Option Bool
  | [] => none
  | ok :: rest =>
      if ok then some true
      else if attempt + 1 > maxAttempts then some false
      else reconnectFrom maxAttempts (attempt + 1) rest

/-- Method `reconnect` (ws_client.go lines 264-309) as observed through its return
value: the retry loop starting at attempt 0. The `reconnecting` flag is set
on entry and cleared by the deferred unlock, so its net effect on the state
is nil for a completed call. -/
def reconnectGo (c : WSClient) (dials : List Bool) : Option Bool :=
  reconnectFrom c.maxReconnectAttempts 0 dials

/-- Method `startReadWriteRoutines` (ws_client.go lines 311-316): a fresh
`readRoutineQuit` channel (so the latch is open again) and a new worker
pair (`wg.Add(2)`). -/
def startReadWriteRoutines (c : WSClient) : WSClient :=
  { c with readRoutineQuitClosed := false, workersRunning := true }

/-- Method `processBacklog` (ws_client.go lines 318-337). The non-blocking receive
on `backlog` takes the single buffered request if present; `writeResult` is
the outcome of `conn.WriteJSON(request)` (`none` = success). On failure the
error is sent on `reconnectAfter`, the request is requeued into `backlog`,
and the error is returned; on success the request is the next frame written
on the connection. -/
def processBacklog (c : WSClient) (writeResult : Option GoError) :
    WSClient × Option GoError :=
  match c.backlog with
  | none => (c, none)
  | some request =>
      let c' := { c with backlog := none }
      match writeResult with
      | some err =>
          ({ c' with reconnectAfter := chanSend1 c'.reconnectAfter err
                     backlog := some request }, some err)
      | none =>
          ({ c' with connWrites := c'.connWrites ++ [Frame.requestFrame request] },
           none)

/-- Outcome of one iteration of the `reconnectRoutine` loop. -/
inductive RoutineOutcome where
  /-- no failure signal buffered: the select blocks (iteration not taken). -/
  | waiting
  /-- the `reconnect` call failed: `c.Stop()` was called and the routine returned. -/
  | clientStopped
  /-- the iteration completed and the loop continues. -/
  | iterationDone
  /-- cancellation via `ctx.Done()` fired or the dial oracle was exhausted: not modelled
  further. -/
  | canceled
  deriving Repr, DecidableEq

/-- One iteration of `reconnectRoutine` (ws_client.go lines 339-372):
receive a failure signal from `reconnectAfter`, `wg.Wait()` for both
workers to exit, run `reconnect` (dial outcomes from `dials`); on fatal
reconnect error call `c.Stop()` and return; on success start a fresh
connection generation, drain `reconnectAfter`, run `processBacklog` (write
outcome `backlogWrite`), and start the worker pair only when
`processBacklog` returned nil. -/
def reconnectRoutineStep (c : WSClient) (dials : List Bool)
    (backlogWrite : Option GoError) : WSClient × RoutineOutcome :=
  match c.reconnectAfter with
  | none => (c, .waiting)
  | some _originalError =>
      let c1 := { c with reconnectAfter := none, workersRunning := false }
      match reconnectGo c1 dials with
      | some false => ({ c1 with running := false }, .clientStopped)
      | some true =>
          let c2 := { c1 with connWrites := [], reconnectAfter := none }
          match processBacklog c2 backlogWrite with
          | (c3, none) => (startReadWriteRoutines c3, .iterationDone)
          | (c3, some _) => (c3, .iterationDone)
      | none => (c1, .canceled)

/-- Events the `writeRoutine` select (ws_client.go lines 396-437) can wake
on: a request arriving on the intake channel, the keepalive ticker firing,
the `readRoutineQuit` latch, or `ctx.Done()`. -/
inductive WriteEvent where
  | userRequest (request : RPCRequest)
  | tick
  | readQuit
  | ctxDone
  deriving Repr, DecidableEq

/-- Whether the write worker goroutine keeps looping after the event or
has returned. -/
inductive WorkerStatus where
  | alive
  | terminated
  deriving Repr, DecidableEq

/-- One iteration of `writeRoutine` (ws_client.go lines 376-438).
`writeResult` is the outcome of the connection write performed in the arm
(`none` = success); `now` is `time.Now()` in nanoseconds. A failed request
write pushes the error on `reconnectAfter`, stores the request into
`backlog`, and terminates; a failed ping write pushes the error and
terminates with the backlog untouched; a successful ping records `now` as
`sentLastPingAt` under the mutex. -/
def writeRoutineStep (c : WSClient) (ev : WriteEvent)
    (writeResult : Option GoError) (now : Int) : WSClient × WorkerStatus :=
  match ev with
  | .userRequest request =>
      match writeResult with
      | some err =>
          ({ c with reconnectAfter := chanSend1 c.reconnectAfter err
                    backlog := chanSend1 c.backlog request }, .terminated)
      | none =>
          ({ c with connWrites := c.connWrites ++ [Frame.requestFrame request] },
           .alive)
  | .tick =>
      match writeResult with
      | some err =>
          ({ c with reconnectAfter := chanSend1 c.reconnectAfter err },
           .terminated)
      | none =>
          ({ c with connWrites := c.connWrites ++ [Frame.ping]
                    sentLastPingAt := now }, .alive)
  | .readQuit => (c, .terminated)
  | .ctxDone =>
      match writeResult with
      | some _ => (c, .terminated)
      | none => ({ c with connWrites := c.connWrites ++ [Frame.close] },
                 .terminated)

/-- The error-handling branch of `readRoutine`'s loop (ws_client.go lines
470-480), taken when `conn.ReadMessage` returned error `err`. If the error
is NOT an unexpected close error with respect to `CloseNormalClosure` —
i.e. it is a normal-closure close frame, or any error that is not a close
frame at all — the routine returns quietly; otherwise it closes the
`readRoutineQuit` latch, sends the error on `reconnectAfter`, and returns.
The routine terminates in both branches. -/
def readRoutineOnError (c : WSClient) (err : GoError) : WSClient :=
  if !(isUnexpectedCloseError err [closeNormalClosure]) then
    c
  else
    { c with readRoutineQuitClosed := true
             reconnectAfter := chanSend1 c.reconnectAfter err }

/-! Concrete sample values used by witnesses and counterexamples. -/

/-- A sample request. -/
def req0 : RPCRequest := { id := 0, method := "subscribe", params := "tm.event" }

/-- A sample transport write error (not a websocket close frame). -/
def writeErr : GoError := .otherError "write tcp: broken pipe"

/-- A sample read error that is not a close frame: a read-deadline timeout. -/
def readTimeoutErr : GoError := .otherError "read tcp: i/o timeout"

/-- A started client in the steady state (after `Start`): running, worker
pair alive, all channels empty. -/
def sampleStarted : WSClient :=
  { newWSClient defaultWSOptions with running := true, workersRunning := true }

/-- The client state right after a request write failed: both workers have
returned, `writeErr` is buffered on `reconnectAfter`, and the request sits
in the backlog slot. -/
def failedWriteState : WSClient :=
  { newWSClient defaultWSOptions with
      running := true
      backlog := some req0
      reconnectAfter := some writeErr }

/-- A client configured with `MaxReconnectAttempts = 2` that has just seen
a write failure. -/
def failedWriteStateMax2 : WSClient :=
  { failedWriteState with maxReconnectAttempts := 2 }

/-! Helper lemmas. -/

/-- Wrapping is the identity on the int64 range. -/
theorem int64Wrap_eq_self (x : Int) (h1 : -2 ^ 63 ≤ x) (h2 : x < 2 ^ 63) :
    int64Wrap x = x := by
  unfold int64Wrap
  have h64 : (2 : Int) ^ 64 = 18446744073709551616 := by norm_num
  have h63 : (2 : Int) ^ 63 = 9223372036854775808 := by norm_num
  omega

/-- An all-failures dial oracle of the exact remaining length makes the
retry loop return the fatal result. -/
theorem reconnectFrom_replicate_false (maxAttempts : Nat) :
    ∀ k attempt, attempt + k = maxAttempts + 1 → 0 < k →
      reconnectFrom maxAttempts attempt (List.replicate k false) = some false := by
  intro k
  induction k with
  | zero => intro attempt _ h0; omega
  | succ n ih =>
      intro attempt h _
      rw [List.replicate_succ]
      rcases Nat.eq_zero_or_pos n with h0 | hpos
      · subst h0
        simp [reconnectFrom, show attempt + 1 > maxAttempts by omega]
      · have hlt : ¬ attempt + 1 > maxAttempts := by omega
        simp only [reconnectFrom, if_neg (by decide : ¬ (false = true)), if_neg hlt]
        exact ih (attempt + 1) (by omega) hpos

/-- A dial success within the attempt budget makes the retry loop return
success, however many failures precede it. -/
theorem reconnectFrom_succeeds (maxAttempts : Nat) :
    ∀ k attempt rest, attempt + k ≤ maxAttempts →
      reconnectFrom maxAttempts attempt
        (List.replicate k false ++ true :: rest) = some true := by
  intro k
  induction k with
  | zero => intro attempt rest _; simp [reconnectFrom]
  | succ n ih =>
      intro attempt rest h
      rw [List.replicate_succ]
      have hlt : ¬ attempt + 1 > maxAttempts := by omega
      simp only [List.cons_append, reconnectFrom, if_neg (by decide : ¬ (false = true)),
        if_neg hlt]
      exact ih (attempt + 1) rest (by omega)

/-- After `n` allocations from a fresh client the counter holds `n`, as
long as `n` stays inside the int64 range. -/
theorem idStateAfter_counter (opts : WSOptions) (n : Nat) (h : n < 2 ^ 63) :
    (idStateAfter (newWSClient opts) n).nextReqID = (n : Int) := by
  induction n with
  | zero => rfl
  | succ m ih =>
      have hm : (idStateAfter (newWSClient opts) m).nextReqID = (m : Int) :=
        ih (by omega)
      show (nextRequestID (idStateAfter (newWSClient opts) m)).2.nextReqID = _
      rw [nextRequestID]
      simp only [hm]
      have h63n : (2 : Nat) ^ 63 = 9223372036854775808 := by norm_num
      have h63 : (2 : Int) ^ 63 = 9223372036854775808 := by norm_num
      have hub : ((m : Int) + 1) < 2 ^ 63 := by
        rw [h63]
        exact_mod_cast (by omega : m + 1 < 9223372036854775808)
      have hlb : -(2 : Int) ^ 63 ≤ (m : Int) + 1 := by
        have h0 : (0 : Int) ≤ (m : Int) + 1 := by positivity
        have hneg : -(2 : Int) ^ 63 ≤ 0 := by norm_num
        linarith
      rw [int64Wrap_eq_self _ hlb hub]
      push_cast
      ring

/-! Claim theorems. -/

/-- C6: `Send(ctx, request)` races the handoff against cancellation: when
the intake channel accepts the request it returns nil and the request is
handed to the write worker; when the context is canceled first it returns
the cancellation error, the request was never handed over, and no client
state is modified on either path. -/
theorem c6_send_blocks_or_cancels (c : WSClient) (request : RPCRequest) :
    sendGo c request SendSelectArm.ctxDone = (c, some ctxCanceledErr, none)
    ∧ sendGo c request SendSelectArm.sendReady = (c, none, some request) :=
  ⟨rfl, rfl⟩

/-- C9: when writing the backlog request to the connection fails inside
`processBacklog`, the request is placed back into the backlog slot before
the error is returned, and nothing is written on the connection — a failed
retransmission never loses the in-flight request. -/
theorem c9_failed_retransmit_requeues (c : WSClient) (req : RPCRequest)
    (err : GoError) (hb : c.backlog = some req) :
    (processBacklog c (some err)).1.backlog = some req
    ∧ (processBacklog c (some err)).2 = some err
    ∧ (processBacklog c (some err)).1.connWrites = c.connWrites := by
  simp [processBacklog, hb]

/-- Witness for C9 at a concrete failed-write state. -/
theorem c9_failed_retransmit_requeues_witness :
    (processBacklog failedWriteState (some writeErr)).1.backlog = some req0
    ∧ (processBacklog failedWriteState (some writeErr)).2 = some writeErr :=
  ⟨(c9_failed_retransmit_requeues failedWriteState req0 writeErr rfl).1,
   (c9_failed_retransmit_requeues failedWriteState req0 writeErr rfl).2.1⟩

/-- C8: when the keepalive ticker fires, a failed ping write emits the
failure signal on `reconnectAfter` and terminates the write worker with the
backlog untouched; a successful ping write records the current time as
`sentLastPingAt`, appends the ping frame to the connection, and the worker
keeps running. -/
theorem c8_keepalive_ping (c : WSClient) (err : GoError) (now : Int)
    (h : c.reconnectAfter = none) :
    (writeRoutineStep c WriteEvent.tick (some err) now).1.backlog = c.backlog
    ∧ (writeRoutineStep c WriteEvent.tick (some err) now).1.reconnectAfter = some err
    ∧ (writeRoutineStep c WriteEvent.tick (some err) now).2 = WorkerStatus.terminated
    ∧ (writeRoutineStep c WriteEvent.tick none now).1.sentLastPingAt = now
    ∧ (writeRoutineStep c WriteEvent.tick none now).1.connWrites
        = c.connWrites ++ [Frame.ping]
    ∧ (writeRoutineStep c WriteEvent.tick none now).2 = WorkerStatus.alive := by
  simp [writeRoutineStep, chanSend1, h]

/-- Witness for C8 at the steady-state client. -/
theorem c8_keepalive_ping_witness :
    (writeRoutineStep sampleStarted WriteEvent.tick (some writeErr) 42).1.backlog
        = sampleStarted.backlog
    ∧ (writeRoutineStep sampleStarted WriteEvent.tick none 42).1.sentLastPingAt = 42 :=
  ⟨(c8_keepalive_ping sampleStarted writeErr 42 rfl).1,
   (c8_keepalive_ping sampleStarted writeErr 42 rfl).2.2.2.1⟩

/-- C2 counterexample: a read-deadline timeout is an error that is not a
graceful (normal) close indication, so the claim requires the read worker
to close the `readRoutineQuit` latch and emit the failure signal; the code
instead returns quietly, leaving the latch open and `reconnectAfter` empty,
because `websocket.IsUnexpectedCloseError` is false for every error that is
not a close frame. -/
theorem c2_read_error_counterexample :
    isUnexpectedCloseError readTimeoutErr [closeNormalClosure] = false
    ∧ readRoutineOnError sampleStarted readTimeoutErr = sampleStarted
    ∧ (readRoutineOnError sampleStarted readTimeoutErr).readRoutineQuitClosed = false
    ∧ (readRoutineOnError sampleStarted readTimeoutErr).reconnectAfter = none :=
  ⟨rfl, rfl, rfl, rfl⟩

/-- C2 (amended): the read worker closes the `readRoutineQuit` latch and
emits the failure signal on `reconnectAfter` exactly when the read error is
an unexpected close error — a close indication whose status code differs
from normal closure; on a normal-closure indication, and on any error that
is not a close indication at all, it terminates quietly with the state
unchanged. -/
theorem c2_read_error_signaling (c : WSClient) (err : GoError)
    (h : c.reconnectAfter = none) :
    (isUnexpectedCloseError err [closeNormalClosure] = false →
      readRoutineOnError c err = c)
    ∧ (isUnexpectedCloseError err [closeNormalClosure] = true →
      (readRoutineOnError c err).readRoutineQuitClosed = true
      ∧ (readRoutineOnError c err).reconnectAfter = some err) := by
  constructor
  · intro hu
    simp [readRoutineOnError, hu]
  · intro hu
    simp [readRoutineOnError, hu, chanSend1, h]

/-- Witness for C2 at a concrete abnormal-closure close error. -/
theorem c2_read_error_signaling_witness :
    (readRoutineOnError sampleStarted
        (GoError.closeError 1006 "abnormal closure")).readRoutineQuitClosed = true
    ∧ (readRoutineOnError sampleStarted
        (GoError.closeError 1006 "abnormal closure")).reconnectAfter
      = some (GoError.closeError 1006 "abnormal closure") :=
  (c2_read_error_signaling sampleStarted
    (GoError.closeError 1006 "abnormal closure") rfl).2 (by decide)

/-- C5: the backlog slot holds at most one request (it is a capacity-one
channel, modelled as an `Option`), and after a successful reconnect a
buffered backlog entry is written to the fresh connection before the new
worker pair is started: the resulting connection trace is exactly that one
request frame, the backlog is cleared, and the workers are (re)started. -/
theorem c5_backlog_first_frame (c : WSClient) (e : GoError) (req : RPCRequest)
    (he : c.reconnectAfter = some e) (hb : c.backlog = some req) :
    (reconnectRoutineStep c [true] none).1.connWrites = [Frame.requestFrame req]
    ∧ (reconnectRoutineStep c [true] none).1.backlog = none
    ∧ (reconnectRoutineStep c [true] none).1.workersRunning = true
    ∧ (reconnectRoutineStep c [true] none).2 = RoutineOutcome.iterationDone := by
  simp [reconnectRoutineStep, he, hb, reconnectGo, reconnectFrom, processBacklog,
    startReadWriteRoutines]

/-- Witness for C5 at a concrete failed-write state. -/
theorem c5_backlog_first_frame_witness :
    (reconnectRoutineStep failedWriteState [true] none).1.connWrites
      = [Frame.requestFrame req0]
    ∧ (reconnectRoutineStep failedWriteState [true] none).1.workersRunning = true :=
  ⟨(c5_backlog_first_frame failedWriteState writeErr req0 rfl rfl).1,
   (c5_backlog_first_frame failedWriteState writeErr req0 rfl rfl).2.2.1⟩

/-- C1 counterexample: after a successful reconnect whose backlog
retransmission fails, the claim requires the whole client to be stopped and
no new failure loop to be triggered; the code instead leaves the client
running, re-emits the failure on the shared `reconnectAfter` channel (so
the coordinator will run another reconnect cycle), and merely continues its
loop — only the worker restart is skipped. -/
theorem c1_retransmit_failure_counterexample :
    (reconnectRoutineStep failedWriteState [true] (some writeErr)).1.running = true
    ∧ (reconnectRoutineStep failedWriteState [true] (some writeErr)).1.reconnectAfter
        = some writeErr
    ∧ (reconnectRoutineStep failedWriteState [true] (some writeErr)).2
        = RoutineOutcome.iterationDone :=
  ⟨rfl, rfl, rfl⟩

/-- C1 (amended): if the backlog retransmission fails after a successful
reconnect, the coordinator skips restarting the read/write worker pair for
that cycle, but the client is NOT stopped: the request is requeued into the
backlog, the failure is re-emitted on the shared `reconnectAfter` channel —
triggering another reconnect cycle for the same send — and the coordinator
continues its loop. -/
theorem c1_retransmit_failure_skips_restart (c : WSClient) (e w : GoError)
    (req : RPCRequest) (he : c.reconnectAfter = some e)
    (hb : c.backlog = some req) :
    (reconnectRoutineStep c [true] (some w)).1.workersRunning = false
    ∧ (reconnectRoutineStep c [true] (some w)).1.backlog = some req
    ∧ (reconnectRoutineStep c [true] (some w)).1.reconnectAfter = some w
    ∧ (reconnectRoutineStep c [true] (some w)).1.running = c.running
    ∧ (reconnectRoutineStep c [true] (some w)).2 = RoutineOutcome.iterationDone := by
  simp [reconnectRoutineStep, he, hb, reconnectGo, reconnectFrom, processBacklog,
    chanSend1]

/-- Witness for C1 (amended) at a concrete failed-write state. -/
theorem c1_retransmit_failure_skips_restart_witness :
    (reconnectRoutineStep failedWriteState [true] (some writeErr)).1.workersRunning
      = false
    ∧ (reconnectRoutineStep failedWriteState [true] (some writeErr)).1.backlog
      = some req0 :=
  ⟨(c1_retransmit_failure_skips_restart failedWriteState writeErr writeErr req0
      rfl rfl).1,
   (c1_retransmit_failure_skips_restart failedWriteState writeErr writeErr req0
      rfl rfl).2.1⟩

/-- C4: with `maxReconnectAttempts = N`, the reconnect loop keeps redialing
while dials fail within the budget (a success after at most `N` failures
returns success), and the `(N+1)`-th consecutive dial failure makes
`reconnect` return the fatal error, upon which `reconnectRoutine` stops the
client and returns, so no further reconnection occurs; the default maximum
is 10. -/
theorem c4_max_reconnect_attempts (N : Nat) (c : WSClient) (e : GoError)
    (hN : c.maxReconnectAttempts = N) (he : c.reconnectAfter = some e) :
    reconnectGo c (List.replicate (N + 1) false) = some false
    ∧ (∀ k rest, k ≤ N →
        reconnectGo c (List.replicate k false ++ true :: rest) = some true)
    ∧ (reconnectRoutineStep c (List.replicate (N + 1) false) none).1.running = false
    ∧ (reconnectRoutineStep c (List.replicate (N + 1) false) none).2
        = RoutineOutcome.clientStopped
    ∧ defaultWSOptions.maxReconnectAttempts = 10 := by
  have hfail : reconnectFrom N 0 (List.replicate (N + 1) false) = some false :=
    reconnectFrom_replicate_false N (N + 1) 0 (by omega) (by omega)
  refine ⟨?_, ?_, ?_, ?_, rfl⟩
  · rw [reconnectGo, hN]; exact hfail
  · intro k rest hk
    rw [reconnectGo, hN]
    exact reconnectFrom_succeeds N k 0 rest (by omega)
  · simp [reconnectRoutineStep, he, reconnectGo, hN, hfail]
  · simp [reconnectRoutineStep, he, reconnectGo, hN, hfail]

/-- Witness for C4 with a maximum of 2 attempts: the 3rd consecutive dial
failure is fatal and stops the client. -/
theorem c4_max_reconnect_attempts_witness :
    reconnectGo failedWriteStateMax2 (List.replicate 3 false) = some false
    ∧ (reconnectRoutineStep failedWriteStateMax2
        (List.replicate 3 false) none).1.running = false :=
  ⟨(c4_max_reconnect_attempts 2 failedWriteStateMax2 writeErr rfl rfl).1,
   (c4_max_reconnect_attempts 2 failedWriteStateMax2 writeErr rfl rfl).2.2.1⟩

/-- C3: for every reconnect attempt `k` in the non-overflowing range (the
default configuration uses at most 11 attempts, far below the bound 33)
and every jitter drawn from `[0, 1s)`, the computed backoff delay equals
`jitter + 2^k` seconds and therefore lies in `[2^k, 2^k + 1)` seconds. -/
theorem c3_backoff_bounds (attempt : Nat) (jitter : Int)
    (h0 : 0 ≤ jitter) (h1 : jitter < goSecond) (ha : attempt ≤ 33) :
    backoffDuration attempt jitter = jitter + 2 ^ attempt * goSecond
    ∧ 2 ^ attempt * goSecond ≤ backoffDuration attempt jitter
    ∧ backoffDuration attempt jitter < 2 ^ attempt * goSecond + goSecond := by
  have hsec : goSecond = 1000000000 := rfl
  have hneg : -(2 : Int) ^ 63 ≤ 0 := by norm_num
  have hpow_le : (2 : Int) ^ attempt ≤ 2 ^ 33 := by
    exact pow_le_pow_right₀ (by norm_num) ha
  have hpow_pos : (0 : Int) < 2 ^ attempt := pow_pos (by norm_num) attempt
  have h33 : (2 : Int) ^ 33 = 8589934592 := by norm_num
  have h63 : (2 : Int) ^ 63 = 9223372036854775808 := by norm_num
  have hw1 : int64Wrap ((2 : Int) ^ attempt) = 2 ^ attempt := by
    apply int64Wrap_eq_self
    · linarith
    · rw [h63]; rw [h33] at hpow_le; linarith
  have hprod_le : (2 : Int) ^ attempt * goSecond ≤ 8589934592 * 1000000000 := by
    rw [hsec]
    rw [h33] at hpow_le
    nlinarith
  have hprod_nonneg : (0 : Int) ≤ 2 ^ attempt * goSecond := by
    rw [hsec]; positivity
  have hw2 : int64Wrap ((2 : Int) ^ attempt * goSecond)
      = 2 ^ attempt * goSecond := by
    apply int64Wrap_eq_self
    · linarith
    · rw [h63]; linarith
  have hw3 : int64Wrap (jitter + 2 ^ attempt * goSecond)
      = jitter + 2 ^ attempt * goSecond := by
    apply int64Wrap_eq_self
    · linarith
    · rw [h63]; rw [hsec] at h1; linarith
  have heq : backoffDuration attempt jitter = jitter + 2 ^ attempt * goSecond := by
    rw [backoffDuration, hw1, hw2, hw3]
  exact ⟨heq, by rw [heq]; linarith, by rw [heq]; linarith⟩

/-- Witness for C3 at attempt 0 with jitter 5ns. -/
theorem c3_backoff_bounds_witness :
    backoffDuration 0 5 = 5 + 2 ^ 0 * goSecond :=
  (c3_backoff_bounds 0 5 (by norm_num) (by norm_num [goSecond]) (by norm_num)).1

/-- C7: the allocator returns the current counter and bumps it by one (the
state transition is atomic, modelling the mutex), so two consecutive
allocations — in particular the ones performed by two consecutive
`UnsubscribeAll` calls — yield strictly increasing, hence distinct,
identifiers, with no deduplication. -/
theorem c7_distinct_increasing_ids (c : WSClient)
    (hlo : -(2 : Int) ^ 63 ≤ c.nextReqID) (hhi : c.nextReqID < 2 ^ 63 - 1) :
    (nextRequestID c).1 = c.nextReqID
    ∧ (nextRequestID c).2.nextReqID = c.nextReqID + 1
    ∧ (unsubscribeAllRequest c).1.id
        < (unsubscribeAllRequest (unsubscribeAllRequest c).2).1.id
    ∧ (unsubscribeAllRequest c).1.id
        ≠ (unsubscribeAllRequest (unsubscribeAllRequest c).2).1.id := by
  have hwrap : int64Wrap (c.nextReqID + 1) = c.nextReqID + 1 := by
    apply int64Wrap_eq_self
    · linarith
    · linarith
  refine ⟨rfl, hwrap, ?_, ?_⟩
  · show c.nextReqID < int64Wrap (c.nextReqID + 1)
    rw [hwrap]; linarith
  · show c.nextReqID ≠ int64Wrap (c.nextReqID + 1)
    rw [hwrap]; omega

/-- Witness for C7: two consecutive `UnsubscribeAll` requests from a fresh
client carry distinct identifiers. -/
theorem c7_distinct_increasing_ids_witness :
    (unsubscribeAllRequest (newWSClient defaultWSOptions)).1.id
      ≠ (unsubscribeAllRequest
          (unsubscribeAllRequest (newWSClient defaultWSOptions)).2).1.id :=
  (c7_distinct_increasing_ids (newWSClient defaultWSOptions)
      (by norm_num [newWSClient, defaultWSOptions])
      (by norm_num [newWSClient, defaultWSOptions])).2.2.2

/-- C10: for a freshly constructed client the first allocated identifier is
0, the `(n+1)`-th allocation returns exactly `n` (within the int64 range),
and each allocation returns one more than the previous — the identifier
sequence over the client's lifetime is exactly 0, 1, 2, .... -/
theorem c10_sequential_ids (opts : WSOptions) (n : Nat) (h : n < 2 ^ 63) :
    nthAllocatedID (newWSClient opts) n = (n : Int)
    ∧ nthAllocatedID (newWSClient opts) 0 = 0
    ∧ (n + 1 < 2 ^ 63 → nthAllocatedID (newWSClient opts) (n + 1)
        = nthAllocatedID (newWSClient opts) n + 1) := by
  refine ⟨idStateAfter_counter opts n h, rfl, ?_⟩
  intro h2
  show (idStateAfter (newWSClient opts) (n + 1)).nextReqID
      = (idStateAfter (newWSClient opts) n).nextReqID + 1
  rw [idStateAfter_counter opts n h, idStateAfter_counter opts (n + 1) h2]
  push_cast
  ring

/-- Witness for C10: the 4th allocation from a fresh client returns 3. -/
theorem c10_sequential_ids_witness :
    nthAllocatedID (newWSClient defaultWSOptions) 3 = 3 :=
  (c10_sequential_ids defaultWSOptions 3 (by norm_num)).1
